import Mathlib

/-!
# iRacing telemetry relay server: a shallow embedding

This file embeds the session/pairing registry and relay dispatcher of
`src/server.js` as executable Lean definitions, and proves properties of
the spec's claims about them.

The server keeps two module-level maps:
  * `clients  : sessionId -> { ws, isCoach, pairingCode, pairedWith }`
  * `pairings : pairingCode -> coachSessionId`
plus per-connection closure state (`sessionId`, `clientData`) set by the
`register` handler.  We model the maps as association lists with JS `Map`
semantics (set replaces in place or appends; delete removes the key;
iteration is in insertion order), connections as numeric ids carried in a
third association list recording liveness and the closure's `sessionId`,
and `Math.random()` as an explicit stream of naturals supplied with each
`register` event.
-/

namespace Relay

/-- JSON scalar values appearing in message payloads. -/
inductive JVal where
  | num (n : Int)
  | str (s : String)
  | jbool (b : Bool)
  deriving DecidableEq, Repr

/-- First-match lookup in an association list (JS `Map.get`). -/
def alookup {κ α : Type} [DecidableEq κ] : List (κ × α) → κ → Option α
  | [], _ => none
  | (k, v) :: t, k' => if k = k' then some v else alookup t k'

/-- JS `Map.set`: replace the entry in place if the key exists, else append. -/
def aset {κ α : Type} [DecidableEq κ] : List (κ × α) → κ → α → List (κ × α)
  | [], k, v => [(k, v)]
  | (k', v') :: t, k, v => if k' = k then (k, v) :: t else (k', v') :: aset t k v

/-- JS `Map.delete`: remove the entries with this key. -/
def adel {κ α : Type} [DecidableEq κ] : List (κ × α) → κ → List (κ × α)
  | [], _ => []
  | (k', v') :: t, k => if k' = k then adel t k else (k', v') :: adel t k

theorem alookup_aset_self {κ α : Type} [DecidableEq κ] (l : List (κ × α)) (k : κ) (v : α) :
    alookup (aset l k v) k = some v := by
  induction l with
  | nil => simp [aset, alookup]
  | cons p t ih =>
    obtain ⟨k', v'⟩ := p
    by_cases hk : k' = k
    · simp [aset, hk, alookup]
    · simp [aset, hk, alookup, ih]

theorem alookup_aset_ne {κ α : Type} [DecidableEq κ] (l : List (κ × α)) (k k' : κ) (v : α)
    (h : k' ≠ k) : alookup (aset l k v) k' = alookup l k' := by
  induction l with
  | nil => simp [aset, alookup, Ne.symm h]
  | cons p t ih =>
    obtain ⟨k₀, v₀⟩ := p
    by_cases hk : k₀ = k
    · subst hk
      simp [aset, alookup, Ne.symm h]
    · simp [aset, hk, alookup, ih]

theorem alookup_adel_self {κ α : Type} [DecidableEq κ] (l : List (κ × α)) (k : κ) :
    alookup (adel l k) k = none := by
  induction l with
  | nil => simp [adel, alookup]
  | cons p t ih =>
    obtain ⟨k₀, v₀⟩ := p
    by_cases hk : k₀ = k
    · simp [adel, hk, ih]
    · simp [adel, hk, alookup, ih]

theorem alookup_adel_ne {κ α : Type} [DecidableEq κ] (l : List (κ × α)) (k k' : κ)
    (h : k' ≠ k) : alookup (adel l k) k' = alookup l k' := by
  induction l with
  | nil => simp [adel]
  | cons p t ih =>
    obtain ⟨k₀, v₀⟩ := p
    by_cases hk : k₀ = k
    · subst hk
      simp [adel, alookup, Ne.symm h, ih]
    · simp [adel, hk, alookup, ih]

/-- One entry of the `clients` map: `{ ws, isCoach, pairingCode, pairedWith }`,
plus the `lastDisconnect` timestamp the reaper adds lazily. -/
structure ClientRecord where
  ws : Nat
  isCoach : Bool
  pairingCode : Option String
  pairedWith : Option String
  lastDisconnect : Option Nat
  deriving DecidableEq, Repr

/-- Per-connection state: transport liveness plus the closure variable
`sessionId` that `handleRegister` assigns. -/
structure Conn where
  isOpen : Bool
  sessionId : Option String
  deriving DecidableEq, Repr

/-- The whole mutable state of the server. -/
structure ServerState where
  clients : List (String × ClientRecord)
  pairings : List (String × String)
  conns : List (Nat × Conn)
  deriving DecidableEq, Repr

/-- `ws.readyState === WebSocket.OPEN` for the connection id `w`. -/
def connOpen (st : ServerState) (w : Nat) : Bool :=
  match alookup st.conns w with
  | some c => c.isOpen
  | none => false

/-- `ws.readyState === WebSocket.CLOSED` for the connection id `w`. -/
def connClosed (st : ServerState) (w : Nat) : Bool :=
  match alookup st.conns w with
  | some c => !c.isOpen
  | none => true

/-- The restricted alphabet of `generatePairingCode` (no confusing chars). -/
def pairingChars : List Char := "ABCDEFGHJKLMNPQRSTUVWXYZ23456789".toList

/-- `generatePairingCode`: three characters, a dash, three characters, each
character drawn from the 32-character alphabet.  `rand i` models the `i`-th
call to `Math.floor(Math.random() * chars.length)`. -/
def generatePairingCode (rand : Nat → Nat) : String :=
  let pick := fun i => pairingChars.getD (rand i % pairingChars.length) 'A'
  String.mk [pick 0, pick 1, pick 2, '-', pick 3, pick 4, pick 5]

/-- The do-while loop of `getUniquePairingCode`.  Returns the final value of
`attempts` and the last generated code.  `fuel` only bounds the recursion;
starting from `fuel = 100, attempts = 0` the `attempts < 100` guard always
stops the loop before fuel runs out. -/
def codeLoop (rand : Nat → Nat) (pairings : List (String × String)) :
    Nat → Nat → Nat × String
  | 0, attempts => (attempts + 1, generatePairingCode (fun i => rand (6 * attempts + i)))
  | fuel + 1, attempts =>
    let code := generatePairingCode (fun i => rand (6 * attempts + i))
    if (alookup pairings code).isSome ∧ attempts + 1 < 100 then
      codeLoop rand pairings fuel (attempts + 1)
    else
      (attempts + 1, code)

/-- `getUniquePairingCode`: draw codes until one is free or `attempts`
reaches 100; `throw new Error(...)` becomes `Except.error`. -/
def getUniquePairingCode (rand : Nat → Nat) (pairings : List (String × String)) :
    Except String String :=
  let r := codeLoop rand pairings 100 0
  if r.1 ≥ 100 then Except.error "Could not generate unique pairing code"
  else Except.ok r.2

/-- Outbound messages (the JSON frames the server sends). -/
inductive OutMsg where
  | pairingCode (code : String)
  | paired (peerId : String)
  | peerDisconnected
  | telemetryOut (fields : List (String × JVal))
  | errorMsg (msg : String)
  deriving DecidableEq, Repr

/-- Inbound events: a connection opening, the three message types (with the
random stream a `register` may consume), a connection closing, and one pass
of the cleanup interval at time `now`. -/
inductive Event where
  | connect (cid : Nat)
  | register (cid : Nat) (sid : String) (isCoach : Bool) (rand : Nat → Nat)
  | pair (cid : Nat) (code : String)
  | telemetry (cid : Nat) (payload : List (String × JVal))
  | close (cid : Nat)
  | reap (now : Nat)

/-- JS `String.prototype.toUpperCase` on the ASCII pairing codes: uppercase
every character, leave everything else (dashes, digits, whitespace) alone. -/
def toUpperJS (s : String) : String := String.mk (s.data.map Char.toUpper)

/-- One field of the forwarded telemetry object: reading an absent inbound
field yields `undefined`, which `JSON.stringify` then drops. -/
def optField (data : List (String × JVal)) (k : String) : List (String × JVal) :=
  match alookup data k with
  | some v => [(k, v)]
  | none => []

/-- The object `handleTelemetry` forwards (minus the constant `type` tag,
which the `OutMsg.telemetryOut` constructor carries): exactly the fields
`throttle`, `brake`, `steering`, `speed`, `gear`, `driver_name` read off the
inbound payload. -/
def forwardPayload (data : List (String × JVal)) : List (String × JVal) :=
  optField data "throttle" ++ optField data "brake" ++ optField data "steering" ++
    optField data "speed" ++ optField data "gear" ++ optField data "driver_name"

/-- `handleRegister`: set the closure `sessionId`, upsert the client record
(a reconnection replaces only `ws`), and for a coach generate a fresh code,
store it, and send it.  A `getUniquePairingCode` throw is caught by the
message handler, which sends the error text back; the mutations made before
the throw persist. -/
def handleRegister (st : ServerState) (cid : Nat) (c : Conn) (sid : String)
    (isCoach : Bool) (rand : Nat → Nat) : ServerState × List (Nat × OutMsg) :=
  let st1 : ServerState := { st with conns := aset st.conns cid { c with sessionId := some sid } }
  let st2 : ServerState :=
    match alookup st1.clients sid with
    | some existing => { st1 with clients := aset st1.clients sid { existing with ws := cid } }
    | none => { st1 with clients := aset st1.clients sid ⟨cid, isCoach, none, none, none⟩ }
  if isCoach then
    match getUniquePairingCode rand st2.pairings with
    | Except.error msg => (st2, [(cid, OutMsg.errorMsg msg)])
    | Except.ok code =>
      match alookup st2.clients sid with
      | some r =>
        ({ st2 with clients := aset st2.clients sid { r with pairingCode := some code },
                    pairings := aset st2.pairings code sid },
         [(cid, OutMsg.pairingCode code)])
      | none => (st2, [])
  else
    (st2, [])

/-- `handlePair`: uppercase the supplied code (no trimming), fail with
`Invalid pairing code` when the registry lacks it, with `Coach is not
connected` when the owning record is missing or its socket is not open;
otherwise link both sides and notify both.  When the requesting connection
never registered, `clientData` is `null` and the assignment
`clientData.pairedWith = ...` throws a `TypeError` before any mutation; the
message handler catches it and sends the error text. -/
def handlePair (st : ServerState) (cid : Nat) (c : Conn) (rawCode : String) :
    ServerState × List (Nat × OutMsg) :=
  let code := toUpperJS rawCode
  match alookup st.pairings code with
  | none => (st, [(cid, OutMsg.errorMsg "Invalid pairing code")])
  | some coachSid =>
    match alookup st.clients coachSid with
    | none => (st, [(cid, OutMsg.errorMsg "Coach is not connected")])
    | some coachData =>
      if connOpen st coachData.ws then
        match c.sessionId with
        | none => (st, [(cid, OutMsg.errorMsg "Cannot set properties of null (setting pairedWith)")])
        | some sid =>
          match alookup st.clients sid with
          | none => (st, [(cid, OutMsg.errorMsg "Cannot set properties of null (setting pairedWith)")])
          | some me =>
            let cl1 := aset st.clients sid { me with pairedWith := some coachSid }
            let cl2 :=
              match alookup cl1 coachSid with
              | some r2 => aset cl1 coachSid { r2 with pairedWith := some sid }
              | none => cl1
            ({ st with clients := cl2 },
             [(cid, OutMsg.paired coachSid), (coachData.ws, OutMsg.paired sid)])
      else
        (st, [(cid, OutMsg.errorMsg "Coach is not connected")])

/-- `handleTelemetry`: silently drop unless the sender is registered, has a
peer, and the peer's socket is open; never mutates any state. -/
def handleTelemetry (st : ServerState) (c : Conn) (payload : List (String × JVal)) :
    ServerState × List (Nat × OutMsg) :=
  match c.sessionId with
  | none => (st, [])
  | some sid =>
    match alookup st.clients sid with
    | none => (st, [])
    | some me =>
      match me.pairedWith with
      | none => (st, [])
      | some p =>
        match alookup st.clients p with
        | none => (st, [])
        | some peer =>
          if connOpen st peer.ws then
            (st, [(peer.ws, OutMsg.telemetryOut (forwardPayload payload))])
          else
            (st, [])

/-- The `close` handler, run after the socket's readyState has flipped:
notify and unlink a live peer, delete a coach's current pairing code, and
keep the closing session's own record untouched for reconnection. -/
def handleClose (st : ServerState) (c : Conn) : ServerState × List (Nat × OutMsg) :=
  match c.sessionId with
  | none => (st, [])
  | some sid =>
    match alookup st.clients sid with
    | none => (st, [])
    | some me =>
      let s1 : ServerState × List (Nat × OutMsg) :=
        match me.pairedWith with
        | none => (st, [])
        | some p =>
          match alookup st.clients p with
          | none => (st, [])
          | some peer =>
            if connOpen st peer.ws then
              ({ st with clients := aset st.clients p { peer with pairedWith := none } },
               [(peer.ws, OutMsg.peerDisconnected)])
            else
              (st, [])
      if me.isCoach then
        match me.pairingCode with
        | some pc => ({ s1.1 with pairings := adel s1.1.pairings pc }, s1.2)
        | none => s1
      else
        s1

/-- One entry of the cleanup interval's `for` loop: stamp a closed client's
`lastDisconnect`, and delete it (with its current code) once it has been
disconnected for more than five minutes. -/
def reapStep (now : Nat) (st : ServerState) (sid : String) : ServerState :=
  match alookup st.clients sid with
  | none => st
  | some client =>
    if connClosed st client.ws then
      match client.lastDisconnect with
      | none => { st with clients := aset st.clients sid { client with lastDisconnect := some now } }
      | some t =>
        if now - t > 300000 then
          { st with clients := adel st.clients sid,
                    pairings :=
                      match client.pairingCode with
                      | some pc => adel st.pairings pc
                      | none => st.pairings }
        else st
    else st

/-- One pass of the cleanup `setInterval` at time `now`. -/
def reap (now : Nat) (st : ServerState) : ServerState :=
  (st.clients.map Prod.fst).foldl (reapStep now) st

/-- The event dispatcher: message events for a dead or unknown connection do
nothing; a `close` first flips the connection's liveness, then runs the
close handler. -/
def step (st : ServerState) (e : Event) : ServerState × List (Nat × OutMsg) :=
  match e with
  | Event.connect cid => ({ st with conns := aset st.conns cid ⟨true, none⟩ }, [])
  | Event.register cid sid isCoach rand =>
    match alookup st.conns cid with
    | some c => if c.isOpen then handleRegister st cid c sid isCoach rand else (st, [])
    | none => (st, [])
  | Event.pair cid code =>
    match alookup st.conns cid with
    | some c => if c.isOpen then handlePair st cid c code else (st, [])
    | none => (st, [])
  | Event.telemetry cid payload =>
    match alookup st.conns cid with
    | some c => if c.isOpen then handleTelemetry st c payload else (st, [])
    | none => (st, [])
  | Event.close cid =>
    match alookup st.conns cid with
    | some c => handleClose { st with conns := aset st.conns cid { c with isOpen := false } }
                  { c with isOpen := false }
    | none => (st, [])
  | Event.reap now => (reap now st, [])

/-- Run a sequence of events, collecting every sent message in order. -/
def run : ServerState → List Event → ServerState × List (Nat × OutMsg)
  | st, [] => (st, [])
  | st, e :: es =>
    let r1 := step st e
    let r2 := run r1.1 es
    (r2.1, r1.2 ++ r2.2)

/-- The server boots with empty registries and no connections. -/
def initState : ServerState := ⟨[], [], []⟩

end Relay

namespace Relay

/-! ## Sample states used by concrete counterexamples and witnesses -/

/-- A coach record holding code `AAA-AAA` on connection 1, not yet paired. -/
def recCoach : ClientRecord := ⟨1, true, some "AAA-AAA", none, none⟩

/-- A viewer record on connection 2, not yet paired. -/
def recViewer : ClientRecord := ⟨2, false, none, none, none⟩

/-- A coach record paired with viewer `V`. -/
def recCoachP : ClientRecord := ⟨1, true, some "AAA-AAA", some "V", none⟩

/-- A viewer record paired with coach `S`. -/
def recViewerP : ClientRecord := ⟨2, false, none, some "S", none⟩

/-- Coach `S` live with code `AAA-AAA`, viewer `V` registered, both sockets open. -/
def stLive : ServerState :=
  ⟨[("S", recCoach), ("V", recViewer)], [("AAA-AAA", "S")],
   [(1, ⟨true, some "S"⟩), (2, ⟨true, some "V"⟩)]⟩

/-- Like `stLive` but the coach's socket has gone down while its code is
still claimed. -/
def stCoachDown : ServerState :=
  ⟨[("S", recCoach), ("V", recViewer)], [("AAA-AAA", "S")],
   [(1, ⟨false, some "S"⟩), (2, ⟨true, some "V"⟩)]⟩

/-- Coach `S` live, and a second connection that has never registered. -/
def stNoReg : ServerState :=
  ⟨[("S", recCoach)], [("AAA-AAA", "S")],
   [(1, ⟨true, some "S"⟩), (2, ⟨true, none⟩)]⟩

/-- Coach `S` and viewer `V` paired with each other, both sockets open. -/
def stPairedUp : ServerState :=
  ⟨[("S", recCoachP), ("V", recViewerP)], [("AAA-AAA", "S")],
   [(1, ⟨true, some "S"⟩), (2, ⟨true, some "V"⟩)]⟩

/-- Coach `S` live owning the spec's example code `AB3-XY9`, viewer `V`
registered. -/
def stCode : ServerState :=
  ⟨[("S", ⟨1, true, some "AB3-XY9", none, none⟩), ("V", recViewer)], [("AB3-XY9", "S")],
   [(1, ⟨true, some "S"⟩), (2, ⟨true, some "V"⟩)]⟩

/-! ## Shared helper lemmas about the close handler -/

/-- When the record's own socket is not open in the state handed to the close
handler (as always holds for the socket that just closed), the handler leaves
the closing session's own record untouched. -/
theorem handleClose_keeps_self (st : ServerState) (c : Conn) (sid : String) (me : ClientRecord)
    (hsid : c.sessionId = some sid) (hme : alookup st.clients sid = some me)
    (hclosed : connOpen st me.ws = false) :
    alookup (handleClose st c).1.clients sid = some me := by
  simp only [handleClose, hsid, hme]
  cases hpw : me.pairedWith with
  | none =>
    cases me.isCoach <;> cases me.pairingCode <;> simp [hme]
  | some p =>
    cases hpeer : alookup st.clients p with
    | none =>
      cases me.isCoach <;> cases me.pairingCode <;> simp [hpeer, hme]
    | some peer =>
      cases hl : connOpen st peer.ws with
      | false =>
        cases me.isCoach <;> cases me.pairingCode <;> simp [hpeer, hl, hme]
      | true =>
        have hps : p ≠ sid := by
          intro h
          subst h
          rw [hme] at hpeer
          cases hpeer
          rw [hl] at hclosed
          cases hclosed
        have hkeep : alookup (aset st.clients p { peer with pairedWith := none }) sid =
            alookup st.clients sid := alookup_aset_ne _ _ _ _ (Ne.symm hps)
        cases me.isCoach <;> cases me.pairingCode <;> simp [hpeer, hl, hkeep, hme]

/-- The close handler always removes a closing coach's current pairing code
from the code registry. -/
theorem handleClose_deletes_code (st : ServerState) (c : Conn) (sid : String) (me : ClientRecord)
    (pc : String) (hsid : c.sessionId = some sid) (hme : alookup st.clients sid = some me)
    (hcoach : me.isCoach = true) (hpc : me.pairingCode = some pc) :
    alookup (handleClose st c).1.pairings pc = none := by
  simp only [handleClose, hsid, hme]
  cases hpw : me.pairedWith with
  | none => simp [hcoach, hpc, alookup_adel_self]
  | some p =>
    cases hpeer : alookup st.clients p with
    | none => simp [hcoach, hpc, alookup_adel_self]
    | some peer =>
      cases hl : connOpen st peer.ws <;> simp [hl, hcoach, hpc, alookup_adel_self]

/-- When the peer is live, the close handler clears the peer's `pairedWith`
and sends it exactly one `peer_disconnected` message. -/
theorem handleClose_clears_peer (st : ServerState) (c : Conn) (sid : String)
    (me peer : ClientRecord) (p : String)
    (hsid : c.sessionId = some sid) (hme : alookup st.clients sid = some me)
    (hpw : me.pairedWith = some p) (hpeer : alookup st.clients p = some peer)
    (hl : connOpen st peer.ws = true) :
    alookup (handleClose st c).1.clients p = some { peer with pairedWith := none } ∧
    (handleClose st c).2 = [(peer.ws, OutMsg.peerDisconnected)] := by
  simp only [handleClose, hsid, hme, hpw, hpeer, hl]
  cases me.isCoach <;> cases me.pairingCode <;> simp [alookup_aset_self]

/-- When the peer's socket is not open, the close handler touches no client
record and sends nothing. -/
theorem handleClose_peer_untouched (st : ServerState) (c : Conn) (sid : String)
    (me peer : ClientRecord) (p : String)
    (hsid : c.sessionId = some sid) (hme : alookup st.clients sid = some me)
    (hpw : me.pairedWith = some p) (hpeer : alookup st.clients p = some peer)
    (hl : connOpen st peer.ws = false) :
    (handleClose st c).1.clients = st.clients ∧ (handleClose st c).2 = [] := by
  simp only [handleClose, hsid, hme, hpw, hpeer, hl]
  cases me.isCoach <;> cases me.pairingCode <;> simp

/-- `handleTelemetry` never mutates the server state. -/
theorem handleTelemetry_state (st : ServerState) (c : Conn) (payload : List (String × JVal)) :
    (handleTelemetry st c payload).1 = st := by
  unfold handleTelemetry
  repeat' split
  all_goals rfl

/-- Membership in one optional field of the forwarded telemetry payload. -/
theorem mem_optField (data : List (String × JVal)) (k0 k : String) (v : JVal) :
    (k, v) ∈ optField data k0 ↔ (k = k0 ∧ alookup data k0 = some v) := by
  unfold optField
  cases h : alookup data k0 with
  | none => simp
  | some w =>
    simp only [List.mem_singleton, Prod.mk.injEq, Option.some.injEq]
    constructor
    · rintro ⟨rfl, rfl⟩
      exact ⟨rfl, rfl⟩
    · rintro ⟨rfl, rfl⟩
      exact ⟨rfl, rfl⟩

end Relay

namespace Relay

/-! ## C1 -/

/-- C1 counterexample: after coach `B` registers, viewer `A` pairs with
`B`'s code and then a second viewer `C` pairs with the same code, `A` still
has `pairedWith = B` while `B` has `pairedWith = C`, with the connections of
both `A` and `B` (ids 2 and 1) open — so `pairedWith` is not symmetric
between connected sessions after a sequence of register and pair
operations. -/
theorem pairedWith_not_symmetric :
    (let st := (run initState [Event.connect 1, Event.register 1 "B" true (fun _ => 0),
      Event.connect 2, Event.register 2 "A" false (fun _ => 0),
      Event.pair 2 "AAA-AAA",
      Event.connect 3, Event.register 3 "C" false (fun _ => 0),
      Event.pair 3 "AAA-AAA"]).1
    (alookup st.clients "A").map ClientRecord.pairedWith = some (some "B") ∧
    (alookup st.clients "B").map ClientRecord.pairedWith = some (some "C") ∧
    (alookup st.clients "B").map ClientRecord.pairedWith ≠ some (some "A") ∧
    (alookup st.clients "A").map ClientRecord.ws = some 2 ∧
    (alookup st.clients "B").map ClientRecord.ws = some 1 ∧
    connOpen st 2 = true ∧ connOpen st 1 = true) := by
  decide

/-- C1 (amended): a successful `Pair` does set both sides together — right
after the step, the requesting viewer's `pairedWith` names the coach, the
coach's `pairedWith` names the viewer, and both receive their `paired`
notification in the same step. -/
theorem pair_success_links_both (st : ServerState) (cid : Nat) (c : Conn) (s : String)
    (sid coachSid : String) (coachData me : ClientRecord)
    (hc : alookup st.conns cid = some c) (hopen : c.isOpen = true)
    (hsid : c.sessionId = some sid)
    (hcode : alookup st.pairings (toUpperJS s) = some coachSid)
    (hcoach : alookup st.clients coachSid = some coachData)
    (hlive : connOpen st coachData.ws = true)
    (hme : alookup st.clients sid = some me) :
    (alookup (step st (Event.pair cid s)).1.clients coachSid).map ClientRecord.pairedWith =
      some (some sid) ∧
    (alookup (step st (Event.pair cid s)).1.clients sid).map ClientRecord.pairedWith =
      some (some coachSid) ∧
    (step st (Event.pair cid s)).2 =
      [(cid, OutMsg.paired coachSid), (coachData.ws, OutMsg.paired sid)] := by
  by_cases heq : sid = coachSid
  · subst heq
    have h1 : alookup (aset st.clients sid { me with pairedWith := some sid }) sid =
        some { me with pairedWith := some sid } := alookup_aset_self ..
    simp [step, hc, hopen, handlePair, hcode, hcoach, hlive, hsid, hme, h1,
      alookup_aset_self]
  · have h1 : alookup (aset st.clients sid { me with pairedWith := some coachSid }) coachSid =
        alookup st.clients coachSid := alookup_aset_ne _ _ _ _ (Ne.symm heq)
    simp [step, hc, hopen, handlePair, hcode, hcoach, hlive, hsid, hme, h1,
      alookup_aset_self, alookup_aset_ne _ _ _ _ heq]

/-- C1 witness: viewer `V` pairing with live coach `S` links both records and
notifies both connections in one step. -/
theorem pair_success_links_both_witness :
    (alookup (step stLive (Event.pair 2 "AAA-AAA")).1.clients "S").map ClientRecord.pairedWith =
      some (some "V") ∧
    (alookup (step stLive (Event.pair 2 "AAA-AAA")).1.clients "V").map ClientRecord.pairedWith =
      some (some "S") ∧
    (step stLive (Event.pair 2 "AAA-AAA")).2 = [(2, OutMsg.paired "S"), (1, OutMsg.paired "V")] := by
  have h := pair_success_links_both stLive 2 ⟨true, some "V"⟩ "AAA-AAA" "V" "S" recCoach recViewer
    (by decide) (by decide) (by decide) (by decide) (by decide) (by decide) (by decide)
  exact ⟨h.1, h.2.1, by rw [h.2.2]; rfl⟩

/-! ## C2 -/

/-- C2 counterexample: coach `S` registers and its connection closes; with no
reaper pass having run (the grace window is still open), a freshly connected
viewer pairing with `S`'s code gets `Invalid pairing code` (CodeNotFound),
not the `Coach is not connected` (PeerOffline) answer the claim requires,
because the close handler released the code immediately. -/
theorem grace_window_lookup_is_code_not_found :
    (let st := (run initState [Event.connect 1, Event.register 1 "S" true (fun _ => 0),
      Event.close 1, Event.connect 2, Event.register 2 "V" false (fun _ => 0)]).1
    step st (Event.pair 2 "AAA-AAA") = (st, [(2, OutMsg.errorMsg "Invalid pairing code")])) := by
  decide

/-- C2 (amended): the close handler releases a coach's code at the moment the
connection closes — so during the whole grace window the lookup already
fails with CodeNotFound — while the session record itself is retained; the
reaper then removes the stale session record after the five-minute grace
threshold (shown on a concrete run: a pass stamping the disconnect time and
a pass past the threshold delete the session, the code being long gone). -/
theorem close_releases_code_keeps_session (st : ServerState) (cid : Nat) (c : Conn)
    (sid pc : String) (me : ClientRecord)
    (hc : alookup st.conns cid = some c) (hsid : c.sessionId = some sid)
    (hme : alookup st.clients sid = some me) (hws : me.ws = cid)
    (hcoach : me.isCoach = true) (hpc : me.pairingCode = some pc) :
    alookup (step st (Event.close cid)).1.pairings pc = none ∧
    alookup (step st (Event.close cid)).1.clients sid = some me ∧
    (let str := (run initState [Event.connect 1, Event.register 1 "S" true (fun _ => 0),
      Event.close 1, Event.reap 1000, Event.reap 302000]).1
     alookup str.clients "S" = none ∧ alookup str.pairings "AAA-AAA" = none) := by
  have hstep : step st (Event.close cid) =
      handleClose { st with conns := aset st.conns cid { c with isOpen := false } }
        { c with isOpen := false } := by
    simp [step, hc]
  rw [hstep]
  have hsid' : Conn.sessionId { c with isOpen := false } = some sid := hsid
  have hme1 : alookup (ServerState.clients
      { st with conns := aset st.conns cid { c with isOpen := false } }) sid = some me := hme
  have hclosed : connOpen { st with conns := aset st.conns cid { c with isOpen := false } }
      me.ws = false := by
    rw [hws]
    simp [connOpen, alookup_aset_self]
  exact ⟨handleClose_deletes_code _ _ _ _ _ hsid' hme1 hcoach hpc,
    handleClose_keeps_self _ _ _ _ hsid' hme1 hclosed, by decide⟩

/-- C2 witness: closing live coach `S`'s connection removes `AAA-AAA` from
the registry at once while the session record stays. -/
theorem close_releases_code_witness :
    alookup (step stLive (Event.close 1)).1.pairings "AAA-AAA" = none ∧
    alookup (step stLive (Event.close 1)).1.clients "S" = some recCoach := by
  have h := close_releases_code_keeps_session stLive 1 ⟨true, some "S"⟩ "S" "AAA-AAA" recCoach
    (by decide) (by decide) (by decide) (by decide) (by decide) (by decide)
  exact ⟨h.1, h.2.1⟩

/-! ## C3 -/

/-- C3: evaluating the code at the failing input.  Coach `S` registers twice;
the second registration claims the fresh code `BBB-BBB` but never deletes the
old entry, so the registry still maps `AAA-AAA` to `S` even though the only
session claims `BBB-BBB` as its code — the registry invariant is broken and
the old code has leaked. -/
theorem reregistration_leaks_old_code :
    (let st := (run initState [Event.connect 1, Event.register 1 "S" true (fun _ => 0),
      Event.register 1 "S" true (fun _ => 1)]).1
    alookup st.pairings "AAA-AAA" = some "S" ∧
    (alookup st.clients "S").map ClientRecord.pairingCode = some (some "BBB-BBB") ∧
    st.clients.map Prod.fst = ["S"]) := by
  decide

/-! ## C4 -/

/-- C4 counterexample: with `AB3-XY9` claimed by live coach `S`, the inputs
`ab3-xy9` and `AB3-XY9` resolve to `S`, but ` AB3-XY9 ` (surrounding
whitespace) is rejected with `Invalid pairing code` — the lookup does not
trim, so the three spelled-out inputs do not all resolve identically. -/
theorem whitespace_code_not_trimmed :
    step stCode (Event.pair 2 " AB3-XY9 ") =
      (stCode, [(2, OutMsg.errorMsg "Invalid pairing code")]) ∧
    (step stCode (Event.pair 2 "ab3-xy9")).2 = [(2, OutMsg.paired "S"), (1, OutMsg.paired "V")] ∧
    (step stCode (Event.pair 2 "AB3-XY9")).2 = [(2, OutMsg.paired "S"), (1, OutMsg.paired "V")] := by
  decide

/-- C4 (amended): pairing-code lookup is case-insensitive — the handler
uppercases the supplied code before the registry lookup, so any two inputs
with the same uppercasing behave identically — but surrounding whitespace is
not trimmed. -/
theorem pair_lookup_uppercases (st : ServerState) (cid : Nat) (s1 s2 : String)
    (h : toUpperJS s1 = toUpperJS s2) :
    step st (Event.pair cid s1) = step st (Event.pair cid s2) := by
  cases hc : alookup st.conns cid with
  | none => simp [step, hc]
  | some c =>
    cases ho : c.isOpen with
    | false => simp [step, hc, ho]
    | true =>
      simp only [step, hc, ho, if_true]
      unfold handlePair
      rw [h]

/-- C4 witness: `ab3-xy9` and `AB3-XY9` produce identical steps. -/
theorem pair_lookup_uppercases_witness :
    step stCode (Event.pair 2 "ab3-xy9") = step stCode (Event.pair 2 "AB3-XY9") :=
  pair_lookup_uppercases stCode 2 "ab3-xy9" "AB3-XY9" (by decide)

/-! ## C5 -/

/-- C5 counterexample: an inbound payload carrying `session_time` is
forwarded without it — `session_time` is not in the code's allow-list, so
the outbound payload does not carry the claimed seven fields. -/
theorem session_time_not_forwarded :
    alookup (forwardPayload [("session_time", JVal.num 42), ("speed", JVal.num 120)])
      "session_time" = none ∧
    forwardPayload [("session_time", JVal.num 42), ("speed", JVal.num 120)] =
      [("speed", JVal.num 120)] ∧
    alookup [("session_time", JVal.num 42), ("speed", JVal.num 120)] "session_time" =
      some (JVal.num 42) := by
  decide

/-- C5 (amended): the forwarded telemetry payload consists of exactly the
allow-listed fields `throttle`, `brake`, `steering`, `speed`, `gear` and
`driver_name` (no `session_time`), each copied from the inbound message;
no other inbound field is passed through. -/
theorem telemetry_allowlist (data : List (String × JVal)) (k : String) (v : JVal) :
    (k, v) ∈ forwardPayload data ↔
      (k ∈ (["throttle", "brake", "steering", "speed", "gear", "driver_name"] : List String) ∧
        alookup data k = some v) := by
  simp only [forwardPayload, List.mem_append, mem_optField, List.mem_cons,
    List.not_mem_nil, or_false]
  constructor
  · rintro (((((⟨rfl, h⟩ | ⟨rfl, h⟩) | ⟨rfl, h⟩) | ⟨rfl, h⟩) | ⟨rfl, h⟩) | ⟨rfl, h⟩) <;> simp [h]
  · rintro ⟨(rfl | rfl | rfl | rfl | rfl | rfl), hv⟩ <;> simp [hv]

/-- C5 witness: a present allow-listed field is forwarded with its value. -/
theorem telemetry_allowlist_witness :
    ("speed", JVal.num 120) ∈ forwardPayload [("speed", JVal.num 120)] :=
  (telemetry_allowlist [("speed", JVal.num 120)] "speed" (JVal.num 120)).mpr (by decide)

/-! ## C6 -/

/-- C6: evaluating the code at the failing input.  With one claimed code
`AAA-AAA` and a random stream that draws `AAA-AAA` for the first 99 attempts
and the free code `BBB-BBB` on the 100th, `getUniquePairingCode` still
throws the exhaustion error: the `attempts >= 100` check fires even though
the 100th draw found a code absent from the registry (second conjunct), so
the function does not fail "only when no free code has been found". -/
theorem exhaustion_despite_free_code :
    getUniquePairingCode (fun i => if i < 594 then 0 else 1) [("AAA-AAA", "X")] =
      Except.error "Could not generate unique pairing code" ∧
    alookup [("AAA-AAA", "X")]
      (generatePairingCode (fun j => if 6 * 99 + j < 594 then 0 else 1)) = none :=
  ⟨rfl, by decide⟩

/-! ## C7 -/

/-- C7: a pair request over a live connection fails with `Invalid pairing
code` (CodeNotFound) when the uppercased code is absent from the registry,
and with `Coach is not connected` (PeerOffline) when the resolved coach's
socket is not open; in both cases the entire server state is unchanged and
the only message sent is the error to the requester. -/
theorem pair_rejects_without_state_change (st : ServerState) (cid : Nat) (c : Conn) (s : String)
    (hc : alookup st.conns cid = some c) (hopen : c.isOpen = true) :
    (alookup st.pairings (toUpperJS s) = none →
      step st (Event.pair cid s) = (st, [(cid, OutMsg.errorMsg "Invalid pairing code")])) ∧
    (∀ coachSid coachData, alookup st.pairings (toUpperJS s) = some coachSid →
      alookup st.clients coachSid = some coachData → connOpen st coachData.ws = false →
      step st (Event.pair cid s) = (st, [(cid, OutMsg.errorMsg "Coach is not connected")])) := by
  constructor
  · intro h
    simp [step, hc, hopen, handlePair, h]
  · intro coachSid coachData h1 h2 h3
    simp [step, hc, hopen, handlePair, h1, h2, h3]

/-- C7 witness: an unknown code and a known code owned by a downed coach are
both rejected with the respective error and no state change. -/
theorem pair_rejects_witness :
    step stLive (Event.pair 2 "ZZZ-ZZZ") =
      (stLive, [(2, OutMsg.errorMsg "Invalid pairing code")]) ∧
    step stCoachDown (Event.pair 2 "AAA-AAA") =
      (stCoachDown, [(2, OutMsg.errorMsg "Coach is not connected")]) := by
  constructor
  · exact (pair_rejects_without_state_change stLive 2 ⟨true, some "V"⟩ "ZZZ-ZZZ"
      (by decide) (by decide)).1 (by decide)
  · exact (pair_rejects_without_state_change stCoachDown 2 ⟨true, some "V"⟩ "AAA-AAA"
      (by decide) (by decide)).2 "S" recCoach (by decide) (by decide) (by decide)

/-! ## C8 -/

/-- C8: a telemetry step never changes the server state, and it produces no
output at all — no forward and no error — when the sender has no
`pairedWith` peer or when the peer record's socket is not open. -/
theorem telemetry_drop (st : ServerState) (cid : Nat) (payload : List (String × JVal)) :
    (step st (Event.telemetry cid payload)).1 = st ∧
    (∀ c sid me, alookup st.conns cid = some c → c.sessionId = some sid →
      alookup st.clients sid = some me → me.pairedWith = none →
      step st (Event.telemetry cid payload) = (st, [])) ∧
    (∀ c sid me p peer, alookup st.conns cid = some c → c.sessionId = some sid →
      alookup st.clients sid = some me → me.pairedWith = some p →
      alookup st.clients p = some peer → connOpen st peer.ws = false →
      step st (Event.telemetry cid payload) = (st, [])) := by
  refine ⟨?_, ?_, ?_⟩
  · cases hc : alookup st.conns cid with
    | none => simp [step, hc]
    | some c =>
      cases ho : c.isOpen <;> simp [step, hc, ho, handleTelemetry_state]
  · intro c sid me hc hsid hme hpw
    simp [step, hc]
    intro ho
    simp [handleTelemetry, hsid, hme, hpw]
  · intro c sid me p peer hc hsid hme hpw hpeer hlive
    simp [step, hc]
    intro ho
    simp [handleTelemetry, hsid, hme, hpw, hpeer, hlive]

/-- C8 witness: telemetry from the unpaired viewer `V` is silently dropped. -/
theorem telemetry_drop_witness :
    step stLive (Event.telemetry 2 [("speed", JVal.num 120)]) = (stLive, []) :=
  (telemetry_drop stLive 2 [("speed", JVal.num 120)]).2.1 ⟨true, some "V"⟩ "V" recViewer
    (by decide) (by decide) (by decide) (by decide)

/-! ## C9 -/

/-- C9: a pair message from a connection that never registered, carrying a
valid code owned by a live coach, makes the server reply with an error on
that connection while the whole state — both registries and every session's
`pairedWith` — is unchanged and the coach receives nothing: the JS
assignment `clientData.pairedWith = ...` throws on the `null` client before
any mutation, and the message handler's catch sends the error text. -/
theorem pair_unregistered_rejected (st : ServerState) (cid : Nat) (c : Conn) (s : String)
    (coachSid : String) (coachData : ClientRecord)
    (hc : alookup st.conns cid = some c) (hopen : c.isOpen = true) (hun : c.sessionId = none)
    (hcode : alookup st.pairings (toUpperJS s) = some coachSid)
    (hcoach : alookup st.clients coachSid = some coachData)
    (hlive : connOpen st coachData.ws = true) :
    step st (Event.pair cid s) =
      (st, [(cid, OutMsg.errorMsg "Cannot set properties of null (setting pairedWith)")]) := by
  simp [step, hc, hopen, handlePair, hcode, hcoach, hlive, hun]

/-- C9 witness: an unregistered connection pairing with live coach `S`'s
valid code gets only an error and changes nothing. -/
theorem pair_unregistered_witness :
    step stNoReg (Event.pair 2 "AAA-AAA") =
      (stNoReg, [(2, OutMsg.errorMsg "Cannot set properties of null (setting pairedWith)")]) :=
  pair_unregistered_rejected stNoReg 2 ⟨true, none⟩ "AAA-AAA" "S" recCoach
    (by decide) (by decide) (by decide) (by decide) (by decide) (by decide)

/-! ## C10 -/

/-- C10: the close handler keeps the closing session's own record — with its
`pairedWith`, role and `pairingCode` — exactly as it was; it deletes a
closing coach's code from the registry; it clears `pairedWith` on the peer's
record and sends `peer_disconnected` exactly when the peer's connection is
open (a peer with a closed socket is left untouched and nothing is sent);
and a later re-registration of the same session id on a fresh connection
resumes the old record, old `pairedWith` included, replacing only `ws`. -/
theorem close_frame (st : ServerState) (cid : Nat) (c : Conn) (sid : String) (me : ClientRecord)
    (hc : alookup st.conns cid = some c) (hsid : c.sessionId = some sid)
    (hme : alookup st.clients sid = some me) (hws : me.ws = cid) :
    alookup (step st (Event.close cid)).1.clients sid = some me ∧
    (∀ pc, me.isCoach = true → me.pairingCode = some pc →
      alookup (step st (Event.close cid)).1.pairings pc = none) ∧
    (∀ p peer, me.pairedWith = some p → alookup st.clients p = some peer →
      connOpen st peer.ws = true → peer.ws ≠ cid →
      alookup (step st (Event.close cid)).1.clients p = some { peer with pairedWith := none } ∧
      (step st (Event.close cid)).2 = [(peer.ws, OutMsg.peerDisconnected)]) ∧
    (∀ p peer, me.pairedWith = some p → alookup st.clients p = some peer →
      connOpen st peer.ws = false →
      (step st (Event.close cid)).1.clients = st.clients ∧
      (step st (Event.close cid)).2 = []) ∧
    (∀ cid2 rand,
      alookup (step (step (step st (Event.close cid)).1 (Event.connect cid2)).1
          (Event.register cid2 sid false rand)).1.clients sid =
        some { me with ws := cid2 }) := by
  have hstep : step st (Event.close cid) =
      handleClose { st with conns := aset st.conns cid { c with isOpen := false } }
        { c with isOpen := false } := by
    simp [step, hc]
  have hsid' : Conn.sessionId { c with isOpen := false } = some sid := hsid
  have hme1 : alookup (ServerState.clients
      { st with conns := aset st.conns cid { c with isOpen := false } }) sid = some me := hme
  have hclosed : connOpen { st with conns := aset st.conns cid { c with isOpen := false } }
      me.ws = false := by
    rw [hws]
    simp [connOpen, alookup_aset_self]
  have hself : alookup (step st (Event.close cid)).1.clients sid = some me := by
    rw [hstep]
    exact handleClose_keeps_self _ _ _ _ hsid' hme1 hclosed
  refine ⟨hself, ?_, ?_, ?_, ?_⟩
  · intro pc hcoach hpc
    rw [hstep]
    exact handleClose_deletes_code _ _ _ _ _ hsid' hme1 hcoach hpc
  · intro p peer hpw hpeer hl hwne
    have hpeer1 : alookup (ServerState.clients
        { st with conns := aset st.conns cid { c with isOpen := false } }) p = some peer := hpeer
    have hl1 : connOpen { st with conns := aset st.conns cid { c with isOpen := false } }
        peer.ws = true := by
      simp only [connOpen] at hl ⊢
      rw [show alookup (aset st.conns cid { c with isOpen := false }) peer.ws =
        alookup st.conns peer.ws from alookup_aset_ne _ _ _ _ hwne]
      exact hl
    rw [hstep]
    exact handleClose_clears_peer _ _ _ _ _ _ hsid' hme1 hpw hpeer1 hl1
  · intro p peer hpw hpeer hl
    have hpeer1 : alookup (ServerState.clients
        { st with conns := aset st.conns cid { c with isOpen := false } }) p = some peer := hpeer
    have hl1 : connOpen { st with conns := aset st.conns cid { c with isOpen := false } }
        peer.ws = false := by
      by_cases hwc : peer.ws = cid
      · rw [hwc]
        simp [connOpen, alookup_aset_self]
      · simp only [connOpen] at hl ⊢
        rw [show alookup (aset st.conns cid { c with isOpen := false }) peer.ws =
          alookup st.conns peer.ws from alookup_aset_ne _ _ _ _ hwc]
        exact hl
    rw [hstep]
    exact handleClose_peer_untouched _ _ _ _ _ _ hsid' hme1 hpw hpeer1 hl1
  · intro cid2 rand
    obtain ⟨stA, hstA⟩ : ∃ s, step st (Event.close cid) = s := ⟨_, rfl⟩
    rw [hstA] at hself ⊢
    simp [step, handleRegister, alookup_aset_self, hself]

/-- C10 witness: closing paired coach `S`'s connection keeps `S`'s record
intact, deletes the code, unpairs and notifies live viewer `V`, and a
re-registration of `S` on connection 3 resumes the old record with only `ws`
replaced. -/
theorem close_frame_witness :
    alookup (step stPairedUp (Event.close 1)).1.clients "S" = some recCoachP ∧
    alookup (step stPairedUp (Event.close 1)).1.pairings "AAA-AAA" = none ∧
    alookup (step stPairedUp (Event.close 1)).1.clients "V" =
      some { recViewerP with pairedWith := none } ∧
    (step stPairedUp (Event.close 1)).2 = [(2, OutMsg.peerDisconnected)] ∧
    alookup (step (step (step stPairedUp (Event.close 1)).1 (Event.connect 3)).1
        (Event.register 3 "S" false (fun _ => 0))).1.clients "S" =
      some { recCoachP with ws := 3 } := by
  have h := close_frame stPairedUp 1 ⟨true, some "S"⟩ "S" recCoachP
    (by decide) (by decide) (by decide) (by decide)
  have hp := h.2.2.1 "V" recViewerP (by decide) (by decide) (by decide) (by decide)
  exact ⟨h.1, h.2.1 "AAA-AAA" (by decide) (by decide), hp.1, by rw [hp.2]; rfl,
    h.2.2.2.2 3 (fun _ => 0)⟩

end Relay
